import Mathlib

/-!
Verification of the AI-trader-altcoin repository's signal and risk modules.

Shallow embedding notes:
* Python floats are modelled by `ℚ`.  The signal combiner in
  `src/signals/technical_signal.py` only *compares* indicator values, so the
  possibility that an indicator is IEEE NaN (as produced by talib during the
  warm-up window) is modelled by `Option ℚ`, where `none` stands for NaN and
  every comparison against `none` is false — exactly the IEEE semantics the
  Python code relies on.
* Python's `ZeroDivisionError` on float division by zero is modelled by an
  explicit `Except` error value at the points where the source divides by a
  value that can be zero.
-/

/-- The trading signal strings "BUY" / "SELL" / "HOLD" emitted by both signal
generators. -/
inductive Signal where
  | buy
  | sell
  | hold
deriving DecidableEq, Repr

/-- One observation row of the indicator DataFrame consumed by
`generate_trading_signals`: the fields read in the loop body
(`RSI`, `MACD_HIST`, `BB_UPPER`, `BB_LOWER`, `close`).  `none` models a NaN
entry (talib warm-up). -/
structure Obs where
  rsi : Option ℚ
  macd_hist : Option ℚ
  bb_upper : Option ℚ
  bb_lower : Option ℚ
  close : Option ℚ
deriving DecidableEq, Repr

/-- Strict `<` on possibly-NaN values: any comparison involving NaN is false,
as in Python / IEEE-754. -/
def vlt (a b : Option ℚ) : Bool :=
  match a, b with
  | some x, some y => decide (x < y)
  | _, _ => false

/-- Strict `>` on possibly-NaN values. -/
def vgt (a b : Option ℚ) : Bool :=
  vlt b a

/-- Loop body of `generate_trading_signals`
(src/signals/technical_signal.py, lines 112–144): start from "HOLD", let the
RSI rule write the signal, then let the MACD-histogram rule overwrite it, then
let the Bollinger-band rule overwrite that. -/
def generate_trading_signal_row (o : Obs) : Signal :=
  let s0 : Signal := .hold
  let s1 : Signal :=
    if vlt o.rsi (some 30) then .buy
    else if vgt o.rsi (some 70) then .sell
    else s0
  let s2 : Signal :=
    if vgt o.macd_hist (some 0) then .buy
    else if vlt o.macd_hist (some 0) then .sell
    else s1
  if vlt o.close o.bb_lower then .buy
  else if vgt o.close o.bb_upper then .sell
  else s2

/-- Embeds `generate_trading_signals`: the per-row loop mapped over the DataFrame. -/
def generate_trading_signals (rows : List Obs) : List Signal :=
  rows.map generate_trading_signal_row

/-- Loop body of `generate_sentiment_signals`
(src/signals/sentiment_signal.py, lines 100–116): label "POSITIVE" with score
strictly above the threshold gives "BUY", label "NEGATIVE" with score strictly
above the threshold gives "SELL", everything else gives "HOLD". -/
def generate_sentiment_signal_row (label : String) (score threshold : ℚ) :
    Signal :=
  if label = "POSITIVE" ∧ score > threshold then .buy
  else if label = "NEGATIVE" ∧ score > threshold then .sell
  else .hold

/-- Embeds `generate_sentiment_signals`: the per-row rule mapped over the DataFrame,
with the source's default `threshold = 0.8`. -/
def generate_sentiment_signals (rows : List (String × ℚ)) : List Signal :=
  rows.map fun r => generate_sentiment_signal_row r.1 r.2 (8 / 10)

/-- The mutable fields of a `RiskManager` instance
(src/risk/risk_management.py, `__init__`). -/
structure RiskState where
  initial_capital : ℚ
  current_capital : ℚ
  risk_per_trade : ℚ
  max_daily_drawdown : ℚ
  stop_loss_rate : ℚ
  take_profit_rate : ℚ
  daily_pl : ℚ
  daily_limit_reached : Bool
deriving DecidableEq, Repr

/-- Embeds `RiskManager.__init__`: both capital fields start at `total_capital`,
`daily_pl` at `0.0`, `daily_limit_reached` at `False`. -/
def RiskState.init (total_capital risk_per_trade max_daily_drawdown
    stop_loss_rate take_profit_rate : ℚ) : RiskState :=
  { initial_capital := total_capital
    current_capital := total_capital
    risk_per_trade := risk_per_trade
    max_daily_drawdown := max_daily_drawdown
    stop_loss_rate := stop_loss_rate
    take_profit_rate := take_profit_rate
    daily_pl := 0
    daily_limit_reached := false }

/-- A Python runtime fault (here always a `ZeroDivisionError` from float
division by zero). -/
inductive RiskError where
  | zeroDivision
deriving DecidableEq, Repr

/-- Embeds `RiskManager.reset_daily_pl`: zero the daily P&L and clear the halt flag. -/
def reset_daily_pl (s : RiskState) : RiskState :=
  { s with daily_pl := 0, daily_limit_reached := false }

/-- Embeds `RiskManager.update_daily_pl` (src/risk/risk_management.py, lines 49–63):
first `daily_pl += pnl`, then the drawdown check
`-daily_pl / current_capital >= max_daily_drawdown` divides by the *not yet
updated* `current_capital` (raising `ZeroDivisionError` when it is zero), and
only afterwards does `current_capital += pnl` run.  The flag is only ever set
to `True` here, never cleared. -/
def update_daily_pl (s : RiskState) (pnl : ℚ) : Except RiskError RiskState :=
  let new_pl := s.daily_pl + pnl
  if s.current_capital = 0 then .error .zeroDivision
  else
    let limit :=
      if -new_pl / s.current_capital ≥ s.max_daily_drawdown then true
      else s.daily_limit_reached
    .ok { s with
          daily_pl := new_pl
          daily_limit_reached := limit
          current_capital := s.current_capital + pnl }

/-- Embeds `RiskManager.compute_position_size` (lines 65–89): `0.0` for
`entry_price <= 0`, otherwise
`(current_capital * risk_per_trade) / (entry_price * stop_loss_rate)`, which
in Python raises `ZeroDivisionError` when the denominator is zero. -/
def compute_position_size (s : RiskState) (entry_price : ℚ) :
    Except RiskError ℚ :=
  if entry_price ≤ 0 then .ok 0
  else if entry_price * s.stop_loss_rate = 0 then .error .zeroDivision
  else .ok (s.current_capital * s.risk_per_trade /
            (entry_price * s.stop_loss_rate))

/-- Result of `RiskManager.check_stop_loss_take_profit`:
"STOP_LOSS", "TAKE_PROFIT" or Python `None`. -/
inductive SLTPResult where
  | stopLoss
  | takeProfit
  | noAction
deriving DecidableEq, Repr

/-- Embeds `RiskManager.check_stop_loss_take_profit` (lines 91–111): `None` for
`entry_price <= 0`; otherwise the change fraction
`(current_price - entry_price) / entry_price` triggers "STOP_LOSS" when
`<= -stop_loss_rate` (checked first), else "TAKE_PROFIT" when
`>= take_profit_rate`, else `None`. -/
def check_stop_loss_take_profit (s : RiskState) (entry_price current_price : ℚ) :
    SLTPResult :=
  if entry_price ≤ 0 then .noAction
  else
    let change_frac := (current_price - entry_price) / entry_price
    if change_frac ≤ -s.stop_loss_rate then .stopLoss
    else if change_frac ≥ s.take_profit_rate then .takeProfit
    else .noAction

/-- Embeds `RiskManager.can_trade` (lines 113–118). -/
def can_trade (s : RiskState) : Bool :=
  !s.daily_limit_reached

/-- One Risk Gate method call, with its arguments. -/
inductive Op where
  | update (pnl : ℚ)
  | computeSize (entry_price : ℚ)
  | checkSLTP (entry_price current_price : ℚ)
  | canTradeOp
  | reset
deriving DecidableEq, Repr

/-- Run a sequence of Risk Gate calls on a state.  `update_daily_pl` and
`compute_position_size` can raise; a raise aborts the sequence, as an uncaught
Python exception would.  `compute_position_size`, `check_stop_loss_take_profit`
and `can_trade` contain no assignment to `self`, so they leave the state
unchanged. -/
def runOps (s : RiskState) : List Op → Except RiskError RiskState
  | [] => .ok s
  | op :: rest =>
    match op with
    | .update pnl =>
      match update_daily_pl s pnl with
      | .ok s1 => runOps s1 rest
      | .error e => .error e
    | .computeSize ep =>
      match compute_position_size s ep with
      | .ok _ => runOps s rest
      | .error e => .error e
    | .checkSLTP _ _ => runOps s rest
    | .canTradeOp => runOps s rest
    | .reset => runOps (reset_daily_pl s) rest

/-- Sum of the `pnl` arguments of the `update` calls in a trace. -/
def sumPnl : List Op → ℚ
  | [] => 0
  | .update pnl :: rest => pnl + sumPnl rest
  | _ :: rest => sumPnl rest

/-- Helper: on nonzero capital, `update_daily_pl` succeeds and its result is
fully determined: P&L and capital are incremented, and the halt flag is set
when the drawdown test (against the pre-update capital) fires, else kept. -/
theorem update_daily_pl_spec (s : RiskState) (pnl : ℚ)
    (h : s.current_capital ≠ 0) :
    update_daily_pl s pnl = .ok
      { s with
        daily_pl := s.daily_pl + pnl
        current_capital := s.current_capital + pnl
        daily_limit_reached :=
          if -(s.daily_pl + pnl) / s.current_capital ≥ s.max_daily_drawdown
          then true else s.daily_limit_reached } := by
  simp [update_daily_pl, h]

/-- Helper: a successful `update_daily_pl` never clears the halt flag. -/
theorem update_daily_pl_flag_mono (s : RiskState) (pnl : ℚ) (t : RiskState)
    (h : update_daily_pl s pnl = .ok t) (hs : s.daily_limit_reached = true) :
    t.daily_limit_reached = true := by
  by_cases hc : s.current_capital = 0
  · simp [update_daily_pl, hc] at h
  · rw [update_daily_pl_spec s pnl hc] at h
    injection h with h
    subst h
    by_cases hd : -(s.daily_pl + pnl) / s.current_capital ≥ s.max_daily_drawdown <;>
      simp [hd, hs]

/-- Helper: a successful `update_daily_pl` adds `pnl` to `current_capital`
and preserves `initial_capital`. -/
theorem update_daily_pl_capital (s : RiskState) (pnl : ℚ) (t : RiskState)
    (h : update_daily_pl s pnl = .ok t) :
    t.current_capital = s.current_capital + pnl ∧
    t.initial_capital = s.initial_capital := by
  by_cases hc : s.current_capital = 0
  · simp [update_daily_pl, hc] at h
  · rw [update_daily_pl_spec s pnl hc] at h
    injection h with h
    subst h
    exact ⟨rfl, rfl⟩

/-- Helper: along a fault-free trace that never calls the daily reset, a halt
flag that is set stays set. -/
theorem runOps_flag_mono : ∀ (ops : List Op) (s t : RiskState),
    Op.reset ∉ ops → runOps s ops = .ok t →
    s.daily_limit_reached = true → t.daily_limit_reached = true := by
  intro ops
  induction ops with
  | nil =>
    intro s t _ h hs
    injection h with h
    subst h
    exact hs
  | cons op rest ih =>
    intro s t hno h hs
    have hno2 : Op.reset ∉ rest := fun he => hno (List.mem_cons_of_mem _ he)
    cases op with
    | update pnl =>
      simp only [runOps] at h
      cases hu : update_daily_pl s pnl with
      | ok s1 =>
        rw [hu] at h
        exact ih s1 t hno2 h (update_daily_pl_flag_mono s pnl s1 hu hs)
      | error e => rw [hu] at h; exact Except.noConfusion h
    | computeSize ep =>
      simp only [runOps] at h
      cases hu : compute_position_size s ep with
      | ok q => rw [hu] at h; exact ih s t hno2 h hs
      | error e => rw [hu] at h; exact Except.noConfusion h
    | checkSLTP ep cp => exact ih s t hno2 h hs
    | canTradeOp => exact ih s t hno2 h hs
    | reset => exact absurd (List.mem_cons_self _ _) hno

/-- C1 (counterexample): the claim asserts that `close > bb_upper` alone
forces "SELL".  On the row RSI=80, MACD_HIST=5, BB_UPPER=100, BB_LOWER=200,
close=150 we have close > BB_UPPER, yet the code answers "BUY", because the
lower-band branch `close < bb_lower` is checked first. -/
theorem C1_counterexample :
    vgt (some 150) (some 100) = true ∧
    generate_trading_signal_row ⟨some 80, some 5, some 100, some 200, some 150⟩ =
      Signal.buy := by
  constructor
  · decide
  · decide

/-- C1 (amended): the combiner is the priority-ordered decision list with the
lower Bollinger band checked before the upper one: close < bb_lower → BUY;
else close > bb_upper → SELL; else MACD_HIST > 0 → BUY; else MACD_HIST < 0 →
SELL; else RSI < 30 → BUY; else RSI > 70 → SELL; else HOLD. -/
theorem C1_band_macd_rsi_priority (o : Obs) :
    (vlt o.close o.bb_lower = true → generate_trading_signal_row o = .buy) ∧
    (vlt o.close o.bb_lower = false → vgt o.close o.bb_upper = true →
      generate_trading_signal_row o = .sell) ∧
    (vlt o.close o.bb_lower = false → vgt o.close o.bb_upper = false →
      vgt o.macd_hist (some 0) = true → generate_trading_signal_row o = .buy) ∧
    (vlt o.close o.bb_lower = false → vgt o.close o.bb_upper = false →
      vgt o.macd_hist (some 0) = false → vlt o.macd_hist (some 0) = true →
      generate_trading_signal_row o = .sell) ∧
    (vlt o.close o.bb_lower = false → vgt o.close o.bb_upper = false →
      vgt o.macd_hist (some 0) = false → vlt o.macd_hist (some 0) = false →
      vlt o.rsi (some 30) = true → generate_trading_signal_row o = .buy) ∧
    (vlt o.close o.bb_lower = false → vgt o.close o.bb_upper = false →
      vgt o.macd_hist (some 0) = false → vlt o.macd_hist (some 0) = false →
      vlt o.rsi (some 30) = false → vgt o.rsi (some 70) = true →
      generate_trading_signal_row o = .sell) ∧
    (vlt o.close o.bb_lower = false → vgt o.close o.bb_upper = false →
      vgt o.macd_hist (some 0) = false → vlt o.macd_hist (some 0) = false →
      vlt o.rsi (some 30) = false → vgt o.rsi (some 70) = false →
      generate_trading_signal_row o = .hold) := by
  unfold generate_trading_signal_row
  refine ⟨?_, ?_, ?_, ?_, ?_, ?_, ?_⟩ <;> intros <;> simp_all

/-- C1 (witness): the spec's own example RSI=80, MACD_HIST=5, close above the
upper band (sane bands BB_LOWER=90 < BB_UPPER=100, close=150) yields "SELL". -/
theorem C1_witness :
    generate_trading_signal_row ⟨some 80, some 5, some 100, some 90, some 150⟩ =
      Signal.sell :=
  (C1_band_macd_rsi_priority ⟨some 80, some 5, some 100, some 90, some 150⟩).2.1
    (by decide) (by decide)

/-- C2 (counterexample): capital 100000, max_daily_drawdown 0.05, loss 4800.
The post-update ratio 4800 / 95200 ≈ 0.0504 meets the limit, so the claim
demands `daily_limit_reached = true`, but the code divides by the pre-update
capital (4800 / 100000 = 0.048 < 0.05) and leaves the flag false. -/
theorem C2_counterexample :
    update_daily_pl (RiskState.init 100000 (1/100) (5/100) (2/100) (5/100))
        (-4800) =
      .ok { initial_capital := 100000, current_capital := 95200,
            risk_per_trade := 1/100, max_daily_drawdown := 5/100,
            stop_loss_rate := 2/100, take_profit_rate := 5/100,
            daily_pl := -4800, daily_limit_reached := false } ∧
    -(-4800 : ℚ) / 95200 ≥ 5/100 := by
  constructor
  · simp only [update_daily_pl, RiskState.init]
    norm_num
  · norm_num

/-- C2 (amended): on nonzero pre-update capital, `update_daily_pl` adds `pnl`
to `daily_pl` and to `current_capital`, and the flag ends up true exactly when
`-daily_pl / current_capital` computed against the PRE-update capital reaches
`max_daily_drawdown` (boundary inclusive) or the flag was already true. -/
theorem C2_update_daily_pl_rule (s : RiskState) (pnl : ℚ)
    (h : s.current_capital ≠ 0) :
    ∃ t, update_daily_pl s pnl = .ok t ∧
      t.daily_pl = s.daily_pl + pnl ∧
      t.current_capital = s.current_capital + pnl ∧
      (t.daily_limit_reached = true ↔
        (-(s.daily_pl + pnl) / s.current_capital ≥ s.max_daily_drawdown ∨
         s.daily_limit_reached = true)) := by
  refine ⟨_, update_daily_pl_spec s pnl h, rfl, rfl, ?_⟩
  by_cases hd : -(s.daily_pl + pnl) / s.current_capital ≥ s.max_daily_drawdown <;>
    simp [hd]

/-- C2 (witness): the concrete boundary example — capital 100000, drawdown
limit 0.05, loss 5001; the pre-update ratio 5001/100000 reaches the limit, so
the flag is set. -/
theorem C2_witness :
    ∃ t, update_daily_pl (RiskState.init 100000 (1/100) (5/100) (2/100) (5/100))
        (-5001) = .ok t ∧
      t.daily_pl = (RiskState.init 100000 (1/100) (5/100) (2/100) (5/100)).daily_pl
        + (-5001) ∧
      t.current_capital =
        (RiskState.init 100000 (1/100) (5/100) (2/100) (5/100)).current_capital
          + (-5001) ∧
      (t.daily_limit_reached = true ↔
        (-((RiskState.init 100000 (1/100) (5/100) (2/100) (5/100)).daily_pl
            + (-5001)) /
          (RiskState.init 100000 (1/100) (5/100) (2/100) (5/100)).current_capital ≥
          (RiskState.init 100000 (1/100) (5/100) (2/100) (5/100)).max_daily_drawdown ∨
         (RiskState.init 100000 (1/100) (5/100) (2/100) (5/100)).daily_limit_reached
           = true)) :=
  C2_update_daily_pl_rule (RiskState.init 100000 (1/100) (5/100) (2/100) (5/100))
    (-5001) (by norm_num [RiskState.init])

/-- C3 (counterexample): on the fully-NaN warm-up row the code does not fail
with any error — it emits the signal "HOLD", because every comparison with NaN
is false.  No `InsufficientHistory` error exists anywhere in the source. -/
theorem C3_counterexample :
    generate_trading_signal_row
      { rsi := none, macd_hist := none, bb_upper := none, bb_lower := none,
        close := some 100 } = Signal.hold := by
  decide

/-- C3 (amended): NaN indicator fields never abort the combiner; a rule whose
field is NaN simply does not fire, so a warm-up row whose RSI, MACD_HIST and
both Bollinger bands are all NaN yields "HOLD" whatever the close is. -/
theorem C3_nan_rows_hold (c : Option ℚ) :
    generate_trading_signal_row
      { rsi := none, macd_hist := none, bb_upper := none, bb_lower := none,
        close := c } = Signal.hold := by
  cases c <;> rfl

/-- C4: `compute_position_size` returns 0 for non-positive entry prices; for a
positive entry price and nonzero stop-loss rate it returns exactly
`current_capital * risk_per_trade / (entry_price * stop_loss_rate)`; and the
result does not depend on `daily_limit_reached` (the method reads no state
machine state and, being free of assignments, changes no field). -/
theorem C4_compute_position_size (s : RiskState) (ep : ℚ) :
    (ep ≤ 0 → compute_position_size s ep = .ok 0) ∧
    (0 < ep → s.stop_loss_rate ≠ 0 →
      compute_position_size s ep =
        .ok (s.current_capital * s.risk_per_trade / (ep * s.stop_loss_rate))) ∧
    (∀ b, compute_position_size { s with daily_limit_reached := b } ep =
        compute_position_size s ep) := by
  refine ⟨fun h => by simp [compute_position_size, h], fun h hsl => ?_, fun b => rfl⟩
  simp [compute_position_size, not_le.mpr h, mul_ne_zero h.ne' hsl]

/-- C4 (witness): the spec's example — capital 100000, risk 1%, stop 2%,
entry 100 — gives quantity 500. -/
theorem C4_witness :
    compute_position_size (RiskState.init 100000 (1/100) (5/100) (2/100) (5/100))
      100 = .ok 500 := by
  have h := (C4_compute_position_size
      (RiskState.init 100000 (1/100) (5/100) (2/100) (5/100)) 100).2.1
    (by norm_num) (by norm_num [RiskState.init])
  rw [h]
  norm_num [RiskState.init]

/-- C5: `check_stop_loss_take_profit` returns `None` for non-positive entry
prices; otherwise, with `change = (current - entry) / entry`, it returns
"STOP_LOSS" whenever `change ≤ -stop_loss_rate` (this check runs first, so it
wins even if the take-profit condition also holds), else "TAKE_PROFIT" when
`change ≥ take_profit_rate`, else `None`. -/
theorem C5_check_stop_loss_take_profit (s : RiskState) (ep cp : ℚ) :
    (ep ≤ 0 → check_stop_loss_take_profit s ep cp = .noAction) ∧
    (0 < ep →
      ((cp - ep) / ep ≤ -s.stop_loss_rate →
        check_stop_loss_take_profit s ep cp = .stopLoss) ∧
      (¬((cp - ep) / ep ≤ -s.stop_loss_rate) →
        (cp - ep) / ep ≥ s.take_profit_rate →
        check_stop_loss_take_profit s ep cp = .takeProfit) ∧
      (¬((cp - ep) / ep ≤ -s.stop_loss_rate) →
        ¬((cp - ep) / ep ≥ s.take_profit_rate) →
        check_stop_loss_take_profit s ep cp = .noAction)) := by
  refine ⟨fun h => by simp [check_stop_loss_take_profit, h], fun h => ?_⟩
  refine ⟨fun h1 => ?_, fun h1 h2 => ?_, fun h1 h2 => ?_⟩
  · simp [check_stop_loss_take_profit, not_le.mpr h, h1]
  · simp [check_stop_loss_take_profit, not_le.mpr h, h1, h2]
  · simp [check_stop_loss_take_profit, not_le.mpr h, h1, h2]

/-- C5 (witness): with the default rates 0.02 / 0.05, entry 100 and current 97
trigger "STOP_LOSS" (change −0.03), and entry 100 with current 106 trigger
"TAKE_PROFIT" (change 0.06). -/
theorem C5_witness :
    check_stop_loss_take_profit
      (RiskState.init 100000 (1/100) (5/100) (2/100) (5/100)) 100 97 =
        SLTPResult.stopLoss ∧
    check_stop_loss_take_profit
      (RiskState.init 100000 (1/100) (5/100) (2/100) (5/100)) 100 106 =
        SLTPResult.takeProfit :=
  ⟨((C5_check_stop_loss_take_profit
        (RiskState.init 100000 (1/100) (5/100) (2/100) (5/100)) 100 97).2
      (by norm_num)).1 (by norm_num [RiskState.init]),
   (((C5_check_stop_loss_take_profit
        (RiskState.init 100000 (1/100) (5/100) (2/100) (5/100)) 100 106).2
      (by norm_num)).2.1 (by norm_num [RiskState.init])
      (by norm_num [RiskState.init]))⟩

/-- C6: once `daily_limit_reached` is true, no fault-free sequence of
`update_daily_pl`, `compute_position_size`, `check_stop_loss_take_profit` or
`can_trade` calls (no reset) ever clears it; and `reset_daily_pl`
unconditionally zeroes `daily_pl`, clears the flag, and makes `can_trade`
answer true for any prior state. -/
theorem C6_halt_sticky_until_reset (s t u : RiskState) (ops : List Op)
    (hno : Op.reset ∉ ops) (hrun : runOps s ops = .ok t)
    (hs : s.daily_limit_reached = true) :
    t.daily_limit_reached = true ∧
    (reset_daily_pl u).daily_pl = 0 ∧
    (reset_daily_pl u).daily_limit_reached = false ∧
    can_trade (reset_daily_pl u) = true :=
  ⟨runOps_flag_mono ops s t hno hrun hs, rfl, rfl, rfl⟩

/-- C6 (witness): a halted state stays halted across an `update_daily_pl` and
a `can_trade` call, and a reset of an arbitrary state re-enables trading. -/
theorem C6_witness :
    (⟨1000, 1005, 1, 1, 1, 1, -895, true⟩ : RiskState).daily_limit_reached = true ∧
    (reset_daily_pl (RiskState.init 5 1 1 1 1)).daily_pl = 0 ∧
    (reset_daily_pl (RiskState.init 5 1 1 1 1)).daily_limit_reached = false ∧
    can_trade (reset_daily_pl (RiskState.init 5 1 1 1 1)) = true :=
  C6_halt_sticky_until_reset ⟨1000, 1000, 1, 1, 1, 1, -900, true⟩
    ⟨1000, 1005, 1, 1, 1, 1, -895, true⟩ (RiskState.init 5 1 1 1 1)
    [.update 5, .canTradeOp] (by decide)
    (by simp only [runOps, update_daily_pl]; norm_num) rfl

/-- C7: the sentiment rule — "POSITIVE" with score strictly above the
threshold gives "BUY", "NEGATIVE" with score strictly above the threshold
gives "SELL", everything else (including score exactly at the threshold)
gives "HOLD"; and the rule is a pure function of its arguments. -/
theorem C7_sentiment_rule (label : String) (score threshold : ℚ) :
    (generate_sentiment_signal_row label score threshold = .buy ↔
      label = "POSITIVE" ∧ score > threshold) ∧
    (generate_sentiment_signal_row label score threshold = .sell ↔
      label = "NEGATIVE" ∧ score > threshold) ∧
    (score = threshold →
      generate_sentiment_signal_row label score threshold = .hold) ∧
    generate_sentiment_signal_row label score threshold =
      generate_sentiment_signal_row label score threshold := by
  unfold generate_sentiment_signal_row
  split_ifs with h1 h2 <;> simp_all <;> intro h <;> simp_all

/-- C7 (witness): label "POSITIVE" with confidence 0.9 above the default
threshold 0.8 yields "BUY". -/
theorem C7_witness :
    generate_sentiment_signal_row "POSITIVE" (9/10) (8/10) = Signal.buy :=
  ((C7_sentiment_rule "POSITIVE" (9/10) (8/10)).1).mpr ⟨rfl, by norm_num⟩

/-- C8: the claim says a zero-or-negative capital is treated as capital
exhaustion (forced HALT, normal return).  In fact `update_daily_pl` divides by
the raw capital: starting from 100 and losing 100 leaves capital exactly 0,
and the very next call raises `ZeroDivisionError`, crashing the caller. -/
theorem C8_zero_capital_division_fault :
    update_daily_pl
      { initial_capital := 100, current_capital := 0, risk_per_trade := 1/100,
        max_daily_drawdown := 5/100, stop_loss_rate := 2/100,
        take_profit_rate := 5/100, daily_pl := -100,
        daily_limit_reached := true } 0 = .error .zeroDivision ∧
    runOps (RiskState.init 100 (1/100) (5/100) (2/100) (5/100))
      [.update (-100), .update 0] = .error .zeroDivision := by
  constructor
  · simp [update_daily_pl]
  · simp only [runOps, update_daily_pl, RiskState.init]
    norm_num

/-- C9: along every fault-free trace of Risk Gate calls, `current_capital`
equals its starting value plus the sum of all `pnl` arguments passed to
`update_daily_pl`, and `initial_capital` never changes: `update_daily_pl` is
the only operation that touches the capital. -/
theorem C9_capital_invariant : ∀ (ops : List Op) (s t : RiskState),
    runOps s ops = .ok t →
    t.current_capital = s.current_capital + sumPnl ops ∧
    t.initial_capital = s.initial_capital := by
  intro ops
  induction ops with
  | nil =>
    intro s t h
    injection h with h
    subst h
    simp [sumPnl]
  | cons op rest ih =>
    intro s t h
    cases op with
    | update pnl =>
      simp only [runOps] at h
      cases hu : update_daily_pl s pnl with
      | ok s1 =>
        rw [hu] at h
        obtain ⟨h1, h2⟩ := update_daily_pl_capital s pnl s1 hu
        obtain ⟨h3, h4⟩ := ih s1 t h
        refine ⟨?_, h4.trans h2⟩
        rw [h3, h1]
        simp [sumPnl]
        ring
      | error e => rw [hu] at h; exact Except.noConfusion h
    | computeSize ep =>
      simp only [runOps] at h
      cases hu : compute_position_size s ep with
      | ok q =>
        rw [hu] at h
        simpa [sumPnl] using ih s t h
      | error e => rw [hu] at h; exact Except.noConfusion h
    | checkSLTP ep cp => simpa [sumPnl] using ih s t h
    | canTradeOp => simpa [sumPnl] using ih s t h
    | reset =>
      simp only [runOps] at h
      simpa [sumPnl, reset_daily_pl] using ih (reset_daily_pl s) t h

/-- C9 (witness): starting from capital 100000, a loss of 100, a daily reset
and a gain of 50 leave current_capital = 100000 + (−100 + 50) = 99950. -/
theorem C9_witness :
    (⟨100000, 99950, 1, 1, 1, 1, 50, false⟩ : RiskState).current_capital =
      (RiskState.init 100000 1 1 1 1).current_capital +
        sumPnl [.update (-100), .reset, .update 50] ∧
    (⟨100000, 99950, 1, 1, 1, 1, 50, false⟩ : RiskState).initial_capital =
      (RiskState.init 100000 1 1 1 1).initial_capital :=
  C9_capital_invariant [.update (-100), .reset, .update 50]
    (RiskState.init 100000 1 1 1 1) ⟨100000, 99950, 1, 1, 1, 1, 50, false⟩
    (by simp only [runOps, update_daily_pl, reset_daily_pl, RiskState.init]
        norm_num)

/-- C10: any label other than exactly "POSITIVE" or "NEGATIVE" yields "HOLD"
for every score and threshold — the classifier never buys or sells on an
unrecognized label. -/
theorem C10_unrecognized_label_holds (label : String) (score threshold : ℚ)
    (h1 : label ≠ "POSITIVE") (h2 : label ≠ "NEGATIVE") :
    generate_sentiment_signal_row label score threshold = Signal.hold := by
  simp [generate_sentiment_signal_row, h1, h2]

/-- C10 (witness): label "NEUTRAL" at full confidence 1.0 still yields
"HOLD". -/
theorem C10_witness :
    generate_sentiment_signal_row "NEUTRAL" 1 (8/10) = Signal.hold :=
  C10_unrecognized_label_holds "NEUTRAL" 1 (8/10) (by decide) (by decide)
